import Mathlib

/-!
# Verification of `batch_jobs_utils.py` (`BatchModal`)

A shallow embedding of the `BatchModal` mixin class from
`src/batch_jobs_utils.py`.  The class drives a Blender modal operator:
`execute` copies the work queue, registers a timer (and, when invoked from
the UI, an overlay draw handler) and records the start time; `modal`
dispatches on the event type: on `TIMER` it processes and pops the head of
`data_to_empty`, recomputes the progress fraction and the remaining-time
estimate, and finishes when the queue empties; on `RET` it finishes; on
`ESC` it cancels with rollback; any other event keeps the operator running.

Modelling choices:
* The operator state is the record `State` below.  Purely presentational
  attributes (`overlay_area_type`, `image`, `progress_color`,
  `_overlay_space_type`, ...) are consumed only by `invoke`/`draw_overlay`,
  which render pixels through the host GPU API; they are outside the model.
  `_overlay_area`, however, is dereferenced by `execute` (line 81, under
  `_invoked_from_ui`) and by `modal` (line 134, `tag_redraw`), so it is in
  the model: it is `None` until `invoke` assigns an area object, which is
  modelled by `Option Unit` — as are the timer object and the draw-handler
  handle, which the code only tests against `None` and hands back to the
  host API.
* Calls into the host API and into the overridable work hooks are recorded
  in an explicit trace of `HostCall` events, in source order.
* Python float arithmetic is modelled exactly over `ℚ`; the current wall
  clock (`time.time()`) is an explicit parameter.
* Python exceptions are modelled by the `Except` error case: indexing an
  empty list raises `IndexError`, division by zero raises
  `ZeroDivisionError`, calling a method on `None` (the un-invoked
  `_overlay_area` at line 134, or at line 81) raises `AttributeError`.  An
  exception aborts the method at the raising expression, but — as in
  Python — every attribute assignment already executed persists, so an
  error carries the exception, the state at the moment of the raise, and
  the hook calls the method made before raising.
* Blender operator return values are singleton string sets
  (`set[str]`); they are modelled by the enumeration `ModalResult`.
-/

namespace BatchJobsUtils

/-- Result value of an operator method: the code returns singleton string
sets, one of `"RUNNING_MODAL"`, `"FINISHED"`, `"CANCELLED"`. -/
inductive ModalResult where
  | RUNNING_MODAL
  | FINISHED
  | CANCELLED
deriving DecidableEq, Repr

/-- Python exceptions the `execute`/`modal` bodies can raise:
`data_to_empty[0]` on an empty list raises `IndexError`; `/` with zero
divisor raises `ZeroDivisionError`; a method call or member access on a
`_overlay_area` that is still `None` raises `AttributeError`. -/
inductive PyError where
  | IndexError
  | ZeroDivisionError
  | AttributeError
deriving DecidableEq, Repr

/-- Calls into the overridable hooks and the host API, recorded in source
order as `modal` executes. -/
inductive HostCall (Item : Type) where
  | mainProcess (d : Item)
  | cleanup
  | undoEverything
  | tagRedraw
  | drawHandlerRemove
  | timerRemove
deriving DecidableEq, Repr

/-- The per-operator attributes of `BatchModal` that the batch loop reads or
writes (class-attribute defaults are the record defaults). -/
structure State (Item : Type) where
  data_to_empty : List Item := []
  interval_seconds : ℚ := 1
  progress_message : String := ""
  _timer : Option Unit := none
  _total_items : Nat := 0
  _progress : ℚ := 0
  _start_time : ℚ := 0
  _estimated_time : ℚ := 0
  _invoked_from_ui : Bool := false
  _overlay_area : Option Unit := none
  _overlay_draw_handler : Option Unit := none
deriving DecidableEq, Repr

/-- The payload of a raised Python exception: the exception itself, the
attribute state at the moment of the raise (assignments already executed
persist on the operator object), and the hook calls the method made before
raising. -/
abbrev Raised (Item : Type) := PyError × State Item × List (HostCall Item)

variable {Item : Type}

/-- `BatchModal.warmup`: the base-class body only sets
`self.progress_message = "Warming up"`; the rest is the ellipsis
placeholder. -/
def warmup (s : State Item) : State Item :=
  { s with progress_message := "Warming up" }

/-- `BatchModal.main_process`: the base-class body is `...; return None`,
a no-op on the state. -/
def main_process (s : State Item) (_datablock : Item) : State Item :=
  s

/-- `BatchModal.undo_everything`: the base-class body is `...; return None`,
a no-op on the state. -/
def undo_everything (s : State Item) : State Item :=
  s

/-- `BatchModal.cleanup`: the base-class body is `...; return None`,
a no-op on the state. -/
def cleanup (s : State Item) : State Item :=
  s

/-- `BatchModal.cancel`: the cancel safeguard removes the overlay draw
handler when one is registered.  Returns the host calls it issues. -/
def cancel (s : State Item) : List (HostCall Item) :=
  if s._overlay_draw_handler.isSome then [HostCall.drawHandlerRemove] else []

/-- The host calls of every exit path after its hook call: remove the draw
handler when one was registered, then remove the timer
(`draw_handler_remove` / `event_timer_remove` leave the attributes
themselves untouched). -/
def teardownTrace (s : State Item) : List (HostCall Item) :=
  (if s._overlay_draw_handler.isSome then [HostCall.drawHandlerRemove] else [])
    ++ [HostCall.timerRemove]

/-- `BatchModal.execute` (`time.time()` is the parameter `now`): runs
`warmup`, rebinds `data_to_empty` to a copy of itself, records the item
count; when invoked from the UI it reads `self._overlay_area.spaces[0]`
(line 81, `AttributeError` if `_overlay_area` is still `None`) and
registers the overlay draw handler; then it registers the timer, records
the start time and reports `RUNNING_MODAL`.  (The aliasing effect of the
copy on line 77 is modelled separately on an explicit heap; on list values
the copy is the identity.) -/
def execute (now : ℚ) (s0 : State Item) :
    Except (Raised Item) (State Item × ModalResult) :=
  let s1 := warmup s0
  let s2 := { s1 with data_to_empty := s1.data_to_empty }
  let s3 := { s2 with _total_items := s2.data_to_empty.length }
  if s3._invoked_from_ui then
    match s3._overlay_area with
    | none => Except.error (PyError.AttributeError, s3, [])
    | some _ =>
      let s4 := { s3 with _overlay_draw_handler := some () }
      let s5 := { s4 with _timer := some (), _start_time := now }
      Except.ok (s5, ModalResult.RUNNING_MODAL)
  else
    let s5 := { s3 with _timer := some (), _start_time := now }
    Except.ok (s5, ModalResult.RUNNING_MODAL)

/-- The `event.type == "TIMER"` branch of `BatchModal.modal` (lines
122-141): processes `data_to_empty[0]`, pops it, recomputes `_progress`
and `_estimated_time`, then calls `self._overlay_area.tag_redraw()` (line
134, `AttributeError` when `_overlay_area` is still `None` — the popped
queue and the two assignments persist on the object), and when the queue
has emptied runs `cleanup` and the teardown and reports `FINISHED`;
otherwise falls through (`none`) to the rest of `modal`. -/
def timerStep (now : ℚ) (s0 : State Item) :
    Except (Raised Item) (State Item × List (HostCall Item) × Option ModalResult) :=
  match s0.data_to_empty with
  | [] => Except.error (PyError.IndexError, s0, [])
  | d :: _ =>
    let s1 := main_process s0 d
    let s2 := { s1 with data_to_empty := s1.data_to_empty.tail }
    let processed_items : Int := (s2._total_items : Int) - (s2.data_to_empty.length : Int)
    if s2._total_items = 0 then
      Except.error (PyError.ZeroDivisionError, s2, [HostCall.mainProcess d])
    else
      let s3 := { s2 with _progress := (processed_items : ℚ) / (s2._total_items : ℚ) }
      let elapsed_time : ℚ := now - s3._start_time
      if processed_items = 0 then
        Except.error (PyError.ZeroDivisionError, s3, [HostCall.mainProcess d])
      else
        let average_time_per_item : ℚ := elapsed_time / (processed_items : ℚ)
        let s4 := { s3 with _estimated_time :=
                      average_time_per_item * ((s3._total_items : ℚ) - (processed_items : ℚ)) }
        if s4._overlay_area.isSome then
          if s4.data_to_empty.length < 1 then
            let s5 := cleanup s4
            Except.ok (s5,
              [HostCall.mainProcess d, HostCall.tagRedraw, HostCall.cleanup]
                ++ teardownTrace s5,
              some ModalResult.FINISHED)
          else
            Except.ok (s4, [HostCall.mainProcess d, HostCall.tagRedraw], none)
        else
          Except.error (PyError.AttributeError, s4, [HostCall.mainProcess d])

/-- `BatchModal.modal` (`time.time()` is the parameter `now`, the event is
its `type` string): the `TIMER` branch first, then — when it did not
return — the `RET` branch (cleanup, teardown, `FINISHED`), the `ESC`
branch (rollback, teardown, `CANCELLED`), and finally `RUNNING_MODAL`. -/
def modal (now : ℚ) (s : State Item) (eventType : String) :
    Except (Raised Item) (State Item × List (HostCall Item) × ModalResult) :=
  let afterTimer : Except (Raised Item) (State Item × List (HostCall Item) × Option ModalResult) :=
    if eventType = "TIMER" then timerStep now s else Except.ok (s, [], none)
  match afterTimer with
  | Except.error e => Except.error e
  | Except.ok (s1, tr, some r) => Except.ok (s1, tr, r)
  | Except.ok (s1, tr, none) =>
    if eventType = "RET" then
      let s2 := cleanup s1
      Except.ok (s2, tr ++ [HostCall.cleanup] ++ teardownTrace s2, ModalResult.FINISHED)
    else if eventType = "ESC" then
      let s2 := undo_everything s1
      Except.ok (s2, tr ++ [HostCall.undoEverything] ++ teardownTrace s2, ModalResult.CANCELLED)
    else
      Except.ok (s1, tr, ModalResult.RUNNING_MODAL)

/-- Feeds `modal` a stream of `TIMER` events (one wall-clock reading per
tick) until it reports something other than `RUNNING_MODAL`, the stream
ends, or an exception escapes (carrying its raise-time payload); traces of
completed ticks are concatenated. -/
def timerTicks (times : List ℚ) (s : State Item) :
    Except (Raised Item) (State Item × List (HostCall Item) × ModalResult) :=
  match times with
  | [] => Except.ok (s, [], ModalResult.RUNNING_MODAL)
  | t :: ts =>
    match modal t s "TIMER" with
    | Except.error e => Except.error e
    | Except.ok (s1, tr, ModalResult.RUNNING_MODAL) =>
      match timerTicks ts s1 with
      | Except.error e => Except.error e
      | Except.ok (s2, tr2, r) => Except.ok (s2, tr ++ tr2, r)
    | Except.ok (s1, tr, r) => Except.ok (s1, tr, r)

/-- The state `modal` leaves behind after a successful `TIMER` branch: the
head is popped and `_progress` / `_estimated_time` are recomputed; every
other field is untouched. -/
def tickedState (now : ℚ) (s : State Item) : State Item :=
  let rest := s.data_to_empty.tail
  let processed_items : Int := (s._total_items : Int) - (rest.length : Int)
  { s with data_to_empty := rest,
           _progress := (processed_items : ℚ) / (s._total_items : ℚ),
           _estimated_time := ((now - s._start_time) / (processed_items : ℚ)) *
                              ((s._total_items : ℚ) - (processed_items : ℚ)) }

lemma timerStep_eq (now : ℚ) (s : State Item) (d : Item) (rest : List Item)
    (hd : s.data_to_empty = d :: rest)
    (htot : s._total_items ≠ 0)
    (hproc : (s._total_items : Int) - (rest.length : Int) ≠ 0) :
    timerStep now s =
      if s._overlay_area.isSome then
        if rest.isEmpty then
          Except.ok (tickedState now s,
            [HostCall.mainProcess d, HostCall.tagRedraw, HostCall.cleanup]
              ++ teardownTrace (tickedState now s),
            some ModalResult.FINISHED)
        else
          Except.ok (tickedState now s, [HostCall.mainProcess d, HostCall.tagRedraw], none)
      else
        Except.error (PyError.AttributeError, tickedState now s,
          [HostCall.mainProcess d]) := by
  obtain ⟨data, iv, pm, tm, tot, pr, st, et, ui, oa, dh⟩ := s
  simp only [State.mk.injEq] at hd ⊢
  subst hd
  simp only [timerStep, tickedState, main_process, cleanup, teardownTrace,
    List.tail_cons, htot, if_false, hproc, ite_false]
  cases oa with
  | none => simp
  | some u =>
    cases rest with
    | nil => simp
    | cons x xs => simp

lemma modal_timer_eq (now : ℚ) (s : State Item) (d : Item) (rest : List Item)
    (hd : s.data_to_empty = d :: rest)
    (htot : s._total_items ≠ 0)
    (hproc : (s._total_items : Int) - (rest.length : Int) ≠ 0) :
    modal now s "TIMER" =
      if s._overlay_area.isSome then
        if rest.isEmpty then
          Except.ok (tickedState now s,
            [HostCall.mainProcess d, HostCall.tagRedraw, HostCall.cleanup]
              ++ teardownTrace (tickedState now s),
            ModalResult.FINISHED)
        else
          Except.ok (tickedState now s, [HostCall.mainProcess d, HostCall.tagRedraw],
            ModalResult.RUNNING_MODAL)
      else
        Except.error (PyError.AttributeError, tickedState now s,
          [HostCall.mainProcess d]) := by
  simp only [modal, timerStep_eq now s d rest hd htot hproc, if_true, reduceIte]
  cases s._overlay_area.isSome
  · simp
  · cases rest <;> simp

lemma modal_not_timer_ret_esc (now : ℚ) (s : State Item) (e : String)
    (h1 : e ≠ "TIMER") (h2 : e ≠ "RET") (h3 : e ≠ "ESC") :
    modal now s e = Except.ok (s, [], ModalResult.RUNNING_MODAL) := by
  simp [modal, h1, h2, h3]

lemma modal_ret (now : ℚ) (s : State Item) :
    modal now s "RET" =
      Except.ok (cleanup s, [HostCall.cleanup] ++ teardownTrace (cleanup s),
        ModalResult.FINISHED) := by
  simp [modal]

lemma modal_esc (now : ℚ) (s : State Item) :
    modal now s "ESC" =
      Except.ok (undo_everything s,
        [HostCall.undoEverything] ++ teardownTrace (undo_everything s),
        ModalResult.CANCELLED) := by
  simp [modal]

lemma execute_ok (now : ℚ) (s : State Item)
    (h : s._invoked_from_ui = true → s._overlay_area.isSome = true) :
    execute now s =
      Except.ok ({ s with
                    progress_message := "Warming up",
                    _total_items := s.data_to_empty.length,
                    _overlay_draw_handler :=
                      if s._invoked_from_ui then some () else s._overlay_draw_handler,
                    _timer := some (),
                    _start_time := now }, ModalResult.RUNNING_MODAL) := by
  obtain ⟨data, iv, pm, tm, tot, pr, st, et, ui, oa, dh⟩ := s
  simp only [execute, warmup]
  cases ui with
  | false => simp
  | true =>
    cases oa with
    | none => simp at h
    | some u => simp

lemma execute_ok_inv (now : ℚ) (s s1 : State Item) (r : ModalResult)
    (h : execute now s = Except.ok (s1, r)) :
    s1.data_to_empty = s.data_to_empty ∧
    s1._total_items = s.data_to_empty.length ∧
    s1._overlay_area = s._overlay_area ∧
    s1._start_time = now ∧
    r = ModalResult.RUNNING_MODAL := by
  obtain ⟨data, iv, pm, tm, tot, pr, st, et, ui, oa, dh⟩ := s
  simp only [execute, warmup] at h
  cases ui with
  | false =>
    simp only [Bool.false_eq_true, reduceIte, Except.ok.injEq, Prod.mk.injEq] at h
    obtain ⟨hs, hrr⟩ := h
    subst hs
    exact ⟨rfl, rfl, rfl, rfl, hrr.symm⟩
  | true =>
    cases oa with
    | none => simp at h
    | some u =>
      simp only [reduceIte, Except.ok.injEq, Prod.mk.injEq] at h
      obtain ⟨hs, hrr⟩ := h
      subst hs
      exact ⟨rfl, rfl, rfl, rfl, hrr.symm⟩

@[simp] lemma tickedState_data (now : ℚ) (s : State Item) :
    (tickedState now s).data_to_empty = s.data_to_empty.tail := rfl

@[simp] lemma tickedState_total (now : ℚ) (s : State Item) :
    (tickedState now s)._total_items = s._total_items := rfl

@[simp] lemma tickedState_start (now : ℚ) (s : State Item) :
    (tickedState now s)._start_time = s._start_time := rfl

@[simp] lemma tickedState_handler (now : ℚ) (s : State Item) :
    (tickedState now s)._overlay_draw_handler = s._overlay_draw_handler := rfl

@[simp] lemma tickedState_area (now : ℚ) (s : State Item) :
    (tickedState now s)._overlay_area = s._overlay_area := rfl

lemma timerRemove_mem_teardown (s : State Item) :
    HostCall.timerRemove ∈ teardownTrace s := by
  unfold teardownTrace
  cases s._overlay_draw_handler.isSome <;> simp

lemma drawHandlerRemove_mem_teardown (s : State Item)
    (h : s._overlay_draw_handler.isSome = true) :
    HostCall.drawHandlerRemove ∈ teardownTrace s := by
  simp [teardownTrace, h]

/-- Running `k` successive `TIMER` events from a state holding an overlay
area (a UI-invoked run) and whose queue is no longer than `_total_items`
succeeds, drops exactly the first `k` items, preserves the bookkeeping
fields, reports `FINISHED` exactly when the queue is exhausted, and on
`FINISHED` the trace contains the cleanup call, the timer removal and —
when a draw handler is registered — its removal. -/
lemma timerTicks_spec (ts : List ℚ) : ∀ (s : State Item),
    s._overlay_area.isSome = true →
    s.data_to_empty.length ≤ s._total_items →
    ts.length ≤ s.data_to_empty.length →
    ∃ s' tr, timerTicks ts s =
      Except.ok (s', tr,
        if ts.length = s.data_to_empty.length ∧ ts ≠ [] then ModalResult.FINISHED
        else ModalResult.RUNNING_MODAL) ∧
      s'.data_to_empty = s.data_to_empty.drop ts.length ∧
      s'._total_items = s._total_items ∧
      s'._start_time = s._start_time ∧
      s'._overlay_draw_handler = s._overlay_draw_handler ∧
      ((ts.length = s.data_to_empty.length ∧ ts ≠ []) →
        HostCall.cleanup ∈ tr ∧ HostCall.timerRemove ∈ tr ∧
        (s._overlay_draw_handler.isSome = true → HostCall.drawHandlerRemove ∈ tr)) := by
  induction ts with
  | nil =>
    intro s _ _ _
    exact ⟨s, [], by simp [timerTicks]⟩
  | cons t ts ih =>
    intro s harea hle hts
    cases hd : s.data_to_empty with
    | nil => rw [hd] at hts; simp at hts
    | cons d rest =>
      rw [hd] at hle hts
      simp only [List.length_cons] at hle hts
      have htot : s._total_items ≠ 0 := by omega
      have hproc : (s._total_items : Int) - (rest.length : Int) ≠ 0 := by omega
      have hmod := modal_timer_eq t s d rest hd htot hproc
      rw [if_pos harea] at hmod
      cases rest with
      | nil =>
        have hts0 : ts = [] := by
          cases ts with
          | nil => rfl
          | cons a l => simp at hts
        subst hts0
        simp only [List.isEmpty_nil, if_true, reduceIte] at hmod
        refine ⟨tickedState t s,
          [HostCall.mainProcess d, HostCall.tagRedraw, HostCall.cleanup]
            ++ teardownTrace (tickedState t s), ?_, ?_, ?_, ?_, ?_, ?_⟩
        · simp [timerTicks, hmod]
        · simp [hd]
        · simp
        · simp
        · simp
        · intro _
          refine ⟨by simp, ?_, ?_⟩
          · have := timerRemove_mem_teardown (tickedState t s)
            simp [List.mem_append, this]
          · intro hh
            have := drawHandlerRemove_mem_teardown (tickedState t s) (by simpa using hh)
            simp [List.mem_append, this]
      | cons x xs =>
        simp only [List.isEmpty_cons, if_false, Bool.false_eq_true, reduceIte] at hmod
        have hle2 : xs.length + 1 + 1 ≤ s._total_items := by simpa using hle
        have hts2 : ts.length + 1 ≤ xs.length + 1 + 1 := by simpa using hts
        have hrec := ih (tickedState t s)
          (by rw [tickedState_area]; exact harea)
          (by
            rw [tickedState_data, tickedState_total, hd]
            simp only [List.tail_cons, List.length_cons]
            omega)
          (by
            rw [tickedState_data, hd]
            simp only [List.tail_cons, List.length_cons]
            omega)
        obtain ⟨s', tr2, heq, hdata, htotal, hstart, hhandler, hfin⟩ := hrec
        refine ⟨s', [HostCall.mainProcess d, HostCall.tagRedraw] ++ tr2, ?_, ?_, ?_, ?_, ?_, ?_⟩
        · simp only [timerTicks, hmod]
          rw [heq]
          have hcond : ((ts.length = (tickedState t s).data_to_empty.length ∧ ts ≠ []) ↔
              (t :: ts).length = (d :: x :: xs).length ∧ (t :: ts) ≠ []) := by
            simp only [tickedState_data, hd, List.tail_cons]
            constructor
            · rintro ⟨h1, _⟩
              simp [h1]
            · rintro ⟨h1, _⟩
              simp only [List.length_cons] at h1
              refine ⟨by simp only [List.length_cons]; omega, ?_⟩
              intro hnil
              subst hnil
              simp at h1
          by_cases hc : (t :: ts).length = (d :: x :: xs).length ∧ (t :: ts) ≠ []
          · rw [if_pos (hcond.mpr hc), if_pos hc]
          · rw [if_neg (fun h => hc (hcond.mp h)), if_neg hc]
        · rw [hdata]
          simp [hd]
        · rw [htotal]; simp
        · rw [hstart]; simp
        · rw [hhandler]; simp
        · intro ⟨h1, _⟩
          simp only [List.length_cons] at h1
          have : ts.length = (tickedState t s).data_to_empty.length := by
            simp [hd]; omega
          have hne : ts ≠ [] := by
            intro hnil
            subst hnil
            simp at h1
          obtain ⟨m1, m2, m3⟩ := hfin ⟨this, hne⟩
          refine ⟨by simp [m1], by simp [m2], fun hh => ?_⟩
          have := m3 (by simpa using hh)
          simp [this]

/-- On any `TIMER` stream within bounds (queue no longer than
`_total_items`, at most one tick per remaining item), the only exception
that can escape is the line-134 `AttributeError` of an un-invoked run: the
indexing stays in bounds and neither divisor is zero. -/
lemma timerTicks_err_attr (ts : List ℚ) : ∀ (s : State Item),
    s.data_to_empty.length ≤ s._total_items →
    ts.length ≤ s.data_to_empty.length →
    ∀ err s2 tr2, timerTicks ts s = Except.error (err, s2, tr2) →
      err = PyError.AttributeError := by
  induction ts with
  | nil =>
    intro s _ _ err s2 tr2 h
    simp [timerTicks] at h
  | cons t ts ih =>
    intro s hle hts err s2 tr2 h
    cases hd : s.data_to_empty with
    | nil => rw [hd] at hts; simp at hts
    | cons d rest =>
      rw [hd] at hle hts
      simp only [List.length_cons] at hle hts
      have htot : s._total_items ≠ 0 := by omega
      have hproc : (s._total_items : Int) - (rest.length : Int) ≠ 0 := by omega
      have hmod := modal_timer_eq t s d rest hd htot hproc
      by_cases harea : s._overlay_area.isSome = true
      · rw [if_pos harea] at hmod
        cases rest with
        | nil =>
          simp only [List.isEmpty_nil, reduceIte] at hmod
          simp [timerTicks, hmod] at h
        | cons x xs =>
          simp only [List.isEmpty_cons, Bool.false_eq_true, reduceIte] at hmod
          simp only [timerTicks, hmod] at h
          have hlen1 : (tickedState t s).data_to_empty.length = xs.length + 1 := by
            rw [tickedState_data, hd]
            simp
          cases hrec : timerTicks ts (tickedState t s) with
          | error e =>
            rw [hrec] at h
            simp only [Except.error.injEq] at h
            obtain ⟨e1, e2, e3⟩ := e
            have hts3 : ts.length ≤ (tickedState t s).data_to_empty.length := by
              rw [hlen1]
              simp only [List.length_cons] at hts
              omega
            have hle3 : (tickedState t s).data_to_empty.length
                ≤ (tickedState t s)._total_items := by
              rw [hlen1, tickedState_total]
              simp only [List.length_cons] at hle
              omega
            have := ih (tickedState t s) hle3 hts3 e1 e2 e3 hrec
            rw [← this]
            exact (congrArg Prod.fst h).symm
          | ok val =>
            rw [hrec] at h
            obtain ⟨s3, tr3, r3⟩ := val
            cases r3 <;> simp at h
      · rw [if_neg harea] at hmod
        simp only [timerTicks, hmod] at h
        simp only [Except.error.injEq, Prod.mk.injEq] at h
        exact h.1.symm

/-!
## Heap model for the shallow copy (claim about aliasing)

Python lists are mutable heap objects.  `execute` line 77 rebinds
`self.data_to_empty` to the shallow copy `self.data_to_empty[:]`, and the
only mutation of the list in the whole class is `self.data_to_empty.pop(0)`
on line 124.  To speak about object identity these two operations are
modelled on an explicit heap: a cell per list object, a reference is a cell
index.
-/

/-- A heap of Python list objects: `cells[r]` is the current contents of the
list object with reference `r`. -/
structure PyHeap (Item : Type) where
  cells : List (List Item)
deriving DecidableEq, Repr

/-- Dereference a list object (out-of-model references read as `[]`). -/
def PyHeap.get (h : PyHeap Item) (r : Nat) : List Item :=
  h.cells.getD r []

/-- In-place update of the list object `r` (Python mutation). -/
def PyHeap.set (h : PyHeap Item) (r : Nat) (v : List Item) : PyHeap Item :=
  ⟨h.cells.set r v⟩

/-- `self.data_to_empty = self.data_to_empty[:]` (execute, line 77):
allocates a fresh list object holding the same elements as the object `r`
and rebinds the attribute to the fresh reference. -/
def executeCopy (h : PyHeap Item) (r : Nat) : PyHeap Item × Nat :=
  (⟨h.cells ++ [h.get r]⟩, h.cells.length)

/-- `self.data_to_empty.pop(0)` (modal, line 124): in-place removal of the
first element of the list object `r`. -/
def tickPop (h : PyHeap Item) (r : Nat) : PyHeap Item :=
  h.set r ((h.get r).tail)

lemma PyHeap.set_cells_length (h : PyHeap Item) (r : Nat) (v : List Item) :
    (h.set r v).cells.length = h.cells.length :=
  List.length_set h.cells r v

lemma PyHeap.get_set_same (h : PyHeap Item) (r : Nat) (v : List Item)
    (hr : r < h.cells.length) :
    (h.set r v).get r = v := by
  simp [PyHeap.get, PyHeap.set, List.getD_eq_getElem?_getD, List.getElem?_set_self hr]

lemma PyHeap.get_set_other (h : PyHeap Item) (r r2 : Nat) (v : List Item)
    (hne : r ≠ r2) :
    (h.set r v).get r2 = h.get r2 := by
  simp [PyHeap.get, PyHeap.set, List.getD_eq_getElem?_getD, List.getElem?_set_ne hne]

/-- Iterating the in-place pop on cell `r2` never touches any other cell
`r`, and leaves cell `r2` holding its original contents minus the first
`k` elements. -/
lemma tickPop_iterate (r r2 : Nat) (hne : r2 ≠ r) :
    ∀ (k : Nat) (h : PyHeap Item), r2 < h.cells.length →
      ((fun hh => tickPop hh r2)^[k] h).get r = h.get r ∧
      ((fun hh => tickPop hh r2)^[k] h).get r2 = (h.get r2).drop k ∧
      ((fun hh => tickPop hh r2)^[k] h).cells.length = h.cells.length := by
  intro k
  induction k with
  | zero => intro h _; simp
  | succ k ih =>
    intro h hr2
    rw [Function.iterate_succ_apply]
    have hstep : tickPop h r2 = h.set r2 ((h.get r2).tail) := rfl
    obtain ⟨ha, hb, hc⟩ := ih (tickPop h r2)
      (by rw [hstep, PyHeap.set_cells_length]; exact hr2)
    refine ⟨?_, ?_, ?_⟩
    · rw [ha, hstep, PyHeap.get_set_other _ _ _ _ hne]
    · rw [hb, hstep, PyHeap.get_set_same _ _ _ hr2, ← List.drop_one, List.drop_drop]
      ring_nf
    · rw [hc, hstep, PyHeap.set_cells_length]

lemma executeCopy_snd (h : PyHeap Item) (r : Nat) :
    (executeCopy h r).2 = h.cells.length := rfl

lemma executeCopy_get_old (h : PyHeap Item) (r r2 : Nat) (hr2 : r2 < h.cells.length) :
    (executeCopy h r).1.get r2 = h.get r2 := by
  simp only [executeCopy, PyHeap.get]
  exact List.getD_append _ _ _ _ hr2

lemma executeCopy_get_new (h : PyHeap Item) (r : Nat) :
    (executeCopy h r).1.get (executeCopy h r).2 = h.get r := by
  simp [executeCopy, PyHeap.get, List.getD_eq_getElem?_getD, List.getElem?_concat_length]

/-!
## Claims
-/

/-- C1: on a `TIMER` event with a non-empty queue, `modal` calls
`main_process` on the first item of `data_to_empty` (it is the first hook
call of the tick) and then removes exactly that first item, so the queue
length drops by exactly one and items are handled first-in-first-out.
This holds on every run: when the operator holds an overlay area (UI
invocation) the tick completes, and when it does not the tick aborts at
the line-134 `tag_redraw` with `AttributeError` — but the call and the pop
have already happened and persist on the raised state. -/
theorem claim_C1_timer_fifo (now : ℚ) (s : State Item) (d : Item) (rest : List Item)
    (hd : s.data_to_empty = d :: rest)
    (hle : s.data_to_empty.length ≤ s._total_items) :
    ∃ s' tr,
      ((∃ r, modal now s "TIMER" = Except.ok (s', tr, r)) ∨
        modal now s "TIMER" = Except.error (PyError.AttributeError, s', tr)) ∧
      tr.head? = some (HostCall.mainProcess d) ∧
      s'.data_to_empty = rest ∧
      s'.data_to_empty.length + 1 = s.data_to_empty.length := by
  rw [hd] at hle
  simp only [List.length_cons] at hle
  have htot : s._total_items ≠ 0 := by omega
  have hproc : (s._total_items : Int) - (rest.length : Int) ≠ 0 := by omega
  have hmod := modal_timer_eq now s d rest hd htot hproc
  by_cases harea : s._overlay_area.isSome = true
  · rw [if_pos harea] at hmod
    cases rest with
    | nil =>
      simp only [List.isEmpty_nil, reduceIte] at hmod
      exact ⟨tickedState now s, _, Or.inl ⟨ModalResult.FINISHED, hmod⟩, rfl,
        by simp [hd], by simp [hd]⟩
    | cons x xs =>
      simp only [List.isEmpty_cons, Bool.false_eq_true, reduceIte] at hmod
      exact ⟨tickedState now s, _, Or.inl ⟨ModalResult.RUNNING_MODAL, hmod⟩, rfl,
        by simp [hd], by simp [hd]⟩
  · rw [if_neg harea] at hmod
    exact ⟨tickedState now s, [HostCall.mainProcess d], Or.inr hmod, rfl,
      by simp [hd], by simp [hd]⟩

/-- C1 witness: a concrete three-item queue (no UI invocation, so the tick
takes the error branch after popping the head). -/
theorem claim_C1_timer_fifo_witness :
    (({ data_to_empty := [7, 8, 9], _total_items := 3 } : State Nat).data_to_empty
        = 7 :: [8, 9]) ∧
    ∃ s' tr,
      ((∃ r, modal 1 ({ data_to_empty := [7, 8, 9], _total_items := 3 } : State Nat) "TIMER"
          = Except.ok (s', tr, r)) ∨
        modal 1 ({ data_to_empty := [7, 8, 9], _total_items := 3 } : State Nat) "TIMER"
          = Except.error (PyError.AttributeError, s', tr)) ∧
      tr.head? = some (HostCall.mainProcess 7) ∧
      s'.data_to_empty = [8, 9] ∧
      s'.data_to_empty.length + 1
        = ({ data_to_empty := [7, 8, 9], _total_items := 3 } : State Nat).data_to_empty.length :=
  ⟨rfl, claim_C1_timer_fifo 1 _ 7 [8, 9] rfl (by decide)⟩

/-- C2: on an `ESC` event, from any state, `modal` calls `undo_everything`,
removes the timer (and the draw handler when one is registered), returns
`CANCELLED`, and processes no item (no `main_process` call, queue
untouched). -/
theorem claim_C2_esc_cancels (now : ℚ) (s : State Item) :
    ∃ s' tr, modal now s "ESC" = Except.ok (s', tr, ModalResult.CANCELLED) ∧
      HostCall.undoEverything ∈ tr ∧
      HostCall.timerRemove ∈ tr ∧
      (s._overlay_draw_handler.isSome = true → HostCall.drawHandlerRemove ∈ tr) ∧
      (∀ d, HostCall.mainProcess d ∉ tr) ∧
      s'.data_to_empty = s.data_to_empty := by
  refine ⟨undo_everything s, _, modal_esc now s, by simp, ?_, ?_, ?_, rfl⟩
  · have := timerRemove_mem_teardown (undo_everything s)
    simp [this]
  · intro hh
    have := drawHandlerRemove_mem_teardown (undo_everything s) hh
    simp [this]
  · intro d
    unfold teardownTrace undo_everything
    cases s._overlay_draw_handler.isSome <;> simp

/-- C3: on a `RET` event, from any state, `modal` calls `cleanup`, removes
the timer (and the draw handler when one is registered) and returns
`FINISHED`. -/
theorem claim_C3_ret_finishes (now : ℚ) (s : State Item) :
    ∃ s' tr, modal now s "RET" = Except.ok (s', tr, ModalResult.FINISHED) ∧
      HostCall.cleanup ∈ tr ∧
      HostCall.timerRemove ∈ tr ∧
      (s._overlay_draw_handler.isSome = true → HostCall.drawHandlerRemove ∈ tr) := by
  refine ⟨cleanup s, _, modal_ret now s, by simp, ?_, ?_⟩
  · have := timerRemove_mem_teardown (cleanup s)
    simp [this]
  · intro hh
    have := drawHandlerRemove_mem_teardown (cleanup s) hh
    simp [this]

/-- C4: for an event whose type is none of `TIMER`, `RET`, `ESC`, `modal`
returns `RUNNING_MODAL`, issues no host call, and leaves the whole operator
state unchanged. -/
theorem claim_C4_other_events_no_op (now : ℚ) (s : State Item) (e : String)
    (h1 : e ≠ "TIMER") (h2 : e ≠ "RET") (h3 : e ≠ "ESC") :
    modal now s e = Except.ok (s, [], ModalResult.RUNNING_MODAL) :=
  modal_not_timer_ret_esc now s e h1 h2 h3

/-- C4 witness: a `MOUSEMOVE` event on a concrete state. -/
theorem claim_C4_other_events_no_op_witness :
    ("MOUSEMOVE" ≠ "TIMER" ∧ "MOUSEMOVE" ≠ "RET" ∧ "MOUSEMOVE" ≠ "ESC") ∧
    modal 0 ({ data_to_empty := [1, 2] } : State Nat) "MOUSEMOVE"
      = Except.ok ({ data_to_empty := [1, 2] }, [], ModalResult.RUNNING_MODAL) :=
  ⟨by decide,
   claim_C4_other_events_no_op 0 _ "MOUSEMOVE" (by decide) (by decide) (by decide)⟩

/-- C7: in the base class the work hooks are no-ops: `main_process`,
`undo_everything` and `cleanup` leave the state untouched for every input,
and `warmup` does nothing but set `progress_message` to `"Warming up"`. -/
theorem claim_C7_base_hooks_noop (s : State Item) (d : Item) :
    main_process s d = s ∧
    undo_everything s = s ∧
    cleanup s = s ∧
    (warmup s).progress_message = "Warming up" ∧
    (warmup s).data_to_empty = s.data_to_empty ∧
    (warmup s).interval_seconds = s.interval_seconds ∧
    (warmup s)._timer = s._timer ∧
    (warmup s)._total_items = s._total_items ∧
    (warmup s)._progress = s._progress ∧
    (warmup s)._start_time = s._start_time ∧
    (warmup s)._estimated_time = s._estimated_time ∧
    (warmup s)._invoked_from_ui = s._invoked_from_ui ∧
    (warmup s)._overlay_area = s._overlay_area ∧
    (warmup s)._overlay_draw_handler = s._overlay_draw_handler :=
  ⟨rfl, rfl, rfl, rfl, rfl, rfl, rfl, rfl, rfl, rfl, rfl, rfl, rfl, rfl⟩

/-- C5 (amended): starting from a UI-invoked `execute` — the operator
holds an overlay area, as `invoke` guarantees — with `n ≥ 1` queued items
and a stream of `TIMER` events only, the loop ends on exactly the `n`-th
tick: every shorter run is still `RUNNING_MODAL` with `n - k` items left,
the `n`-tick run returns `FINISHED` with an empty queue after calling
`cleanup` and removing the timer, and every single tick strictly shrinks
the queue.  Without the UI invocation the claim fails: the first tick
aborts with `AttributeError` at the line-134 `tag_redraw` (see the
counterexample). -/
theorem claim_C5_timer_stream_terminates (now0 : ℚ) (s0 s1 : State Item)
    (times : List ℚ) (n : Nat) (hn : 1 ≤ n) (hdata : s0.data_to_empty.length = n)
    (hlen : times.length = n) (harea : s0._overlay_area.isSome = true)
    (hex : execute now0 s0 = Except.ok (s1, ModalResult.RUNNING_MODAL)) :
    (∃ s' tr, timerTicks times s1 = Except.ok (s', tr, ModalResult.FINISHED) ∧
      s'.data_to_empty = [] ∧ HostCall.cleanup ∈ tr ∧ HostCall.timerRemove ∈ tr) ∧
    (∀ k, k < n → ∃ s' tr, timerTicks (times.take k) s1
        = Except.ok (s', tr, ModalResult.RUNNING_MODAL) ∧
      s'.data_to_empty.length = n - k) ∧
    (∀ (t : ℚ) (s : State Item), s._overlay_area.isSome = true →
      s.data_to_empty.length ≤ s._total_items →
      1 ≤ s.data_to_empty.length →
      ∃ s' tr r, modal t s "TIMER" = Except.ok (s', tr, r) ∧
        s'.data_to_empty.length < s.data_to_empty.length) := by
  obtain ⟨hdata1, htotal1, harea1, _, _⟩ := execute_ok_inv now0 s0 s1 _ hex
  refine ⟨?_, ?_, ?_⟩
  · obtain ⟨s', tr, heq, hdrop, _, _, _, hfin⟩ :=
      timerTicks_spec times s1 (by rw [harea1]; exact harea)
        (by rw [hdata1, htotal1]) (by rw [hdata1, hdata, hlen])
    have hcond : times.length = s1.data_to_empty.length ∧ times ≠ [] := by
      refine ⟨by rw [hdata1, hdata, hlen], ?_⟩
      intro h0
      rw [h0] at hlen
      simp at hlen
      omega
    rw [if_pos hcond] at heq
    obtain ⟨m1, m2, _⟩ := hfin hcond
    refine ⟨s', tr, heq, ?_, m1, m2⟩
    rw [hdrop, hdata1, hlen, ← hdata]
    exact List.drop_length _
  · intro k hk
    have hklen : (times.take k).length = k := by
      rw [List.length_take, hlen]
      omega
    obtain ⟨s', tr, heq, hdrop, _, _, _, _⟩ :=
      timerTicks_spec (times.take k) s1 (by rw [harea1]; exact harea)
        (by rw [hdata1, htotal1]) (by rw [hdata1, hdata, hklen]; omega)
    have hcond : ¬((times.take k).length = s1.data_to_empty.length ∧
        times.take k ≠ []) := by
      rw [hklen, hdata1, hdata]
      rintro ⟨h1, _⟩
      omega
    rw [if_neg hcond] at heq
    refine ⟨s', tr, heq, ?_⟩
    rw [hdrop, hdata1, hklen, List.length_drop, hdata]
  · intro t s harea2 hle1 hlen1
    cases hd : s.data_to_empty with
    | nil => rw [hd] at hlen1; simp at hlen1
    | cons d rest =>
      rw [hd] at hle1
      simp only [List.length_cons] at hle1
      have htot0 : s._total_items ≠ 0 := by omega
      have hproc : (s._total_items : Int) - (rest.length : Int) ≠ 0 := by omega
      have hmod := modal_timer_eq t s d rest hd htot0 hproc
      rw [if_pos harea2] at hmod
      have hshrink : (tickedState t s).data_to_empty.length < (d :: rest).length := by
        simp only [tickedState_data, hd, List.tail_cons, List.length_cons]
        omega
      cases rest with
      | nil =>
        simp only [List.isEmpty_nil, reduceIte] at hmod
        exact ⟨tickedState t s, _, ModalResult.FINISHED, hmod, hshrink⟩
      | cons x xs =>
        simp only [List.isEmpty_cons, Bool.false_eq_true, reduceIte] at hmod
        exact ⟨tickedState t s, _, ModalResult.RUNNING_MODAL, hmod, hshrink⟩

/-- C5 counterexample: the claim as stated, without the UI-invocation
condition, is false at a concrete input.  A plain (non-invoked) `execute`
start with one queued item does not finish on its single tick: the tick
pops the item and updates the bookkeeping, then raises `AttributeError`
at the line-134 `tag_redraw` because `_overlay_area` is still `None` —
`cleanup` is never called, the timer is never removed and no `FINISHED`
is returned. -/
theorem claim_C5_uninvoked_run_crashes :
    execute 0 ({ data_to_empty := [4] } : State Nat)
      = Except.ok ({
          data_to_empty := [4],
          progress_message := "Warming up",
          _total_items := 1,
          _timer := some (),
          _start_time := 0 }, ModalResult.RUNNING_MODAL) ∧
    timerTicks [1] ({
        data_to_empty := [4],
        progress_message := "Warming up",
        _total_items := 1,
        _timer := some (),
        _start_time := 0 } : State Nat)
      = Except.error (PyError.AttributeError, {
          data_to_empty := [],
          progress_message := "Warming up",
          _total_items := 1,
          _progress := 1,
          _start_time := 0,
          _estimated_time := 0,
          _timer := some () },
          [HostCall.mainProcess 4]) := by
  refine ⟨rfl, ?_⟩
  have hmod := modal_timer_eq 1 ({
      data_to_empty := [4],
      progress_message := "Warming up",
      _total_items := 1,
      _timer := some (),
      _start_time := 0 } : State Nat) 4 [] rfl (by decide) (by decide)
  rw [if_neg (by decide)] at hmod
  have hts : tickedState 1 ({
      data_to_empty := [4],
      progress_message := "Warming up",
      _total_items := 1,
      _timer := some (),
      _start_time := 0 } : State Nat)
      = ({
          data_to_empty := [],
          progress_message := "Warming up",
          _total_items := 1,
          _progress := 1,
          _start_time := 0,
          _estimated_time := 0,
          _timer := some () } : State Nat) := by
    simp only [tickedState]
    norm_num
  rw [hts] at hmod
  simp only [timerTicks, hmod]

/-- C5 witness: a UI-invoked two-item start, two timer readings. -/
theorem claim_C5_timer_stream_terminates_witness :
    ∃ s' tr, timerTicks [1, 2] ({
        data_to_empty := [4, 5],
        progress_message := "Warming up",
        _total_items := 2,
        _timer := some (),
        _start_time := 0,
        _overlay_area := some () } : State Nat)
      = Except.ok (s', tr, ModalResult.FINISHED) ∧
      s'.data_to_empty = [] ∧ HostCall.cleanup ∈ tr ∧ HostCall.timerRemove ∈ tr :=
  (claim_C5_timer_stream_terminates 0
    ({ data_to_empty := [4, 5], _overlay_area := some () } : State Nat) _ [1, 2] 2
    (by decide) (by decide) (by decide) (by decide) rfl).1

/-- C6: every `TIMER` tick sets `_progress = k / n` and
`_estimated_time = (elapsed / k) * (n - k)`, where `n = _total_items`,
`k = n - (queue length after the pop)` is the number of items processed so
far and `elapsed = now - _start_time`; `_start_time` itself is untouched.
This holds on every run: the two assignments precede the line-134
`tag_redraw`, so they persist whether the tick completes (UI invocation)
or then aborts with `AttributeError` (no overlay area). -/
theorem claim_C6_progress_and_estimate (now : ℚ) (s : State Item) (n : Nat)
    (htot : s._total_items = n)
    (hne : s.data_to_empty ≠ [])
    (hle : s.data_to_empty.length ≤ n) :
    ∃ s' tr,
      ((∃ r, modal now s "TIMER" = Except.ok (s', tr, r)) ∨
        modal now s "TIMER" = Except.error (PyError.AttributeError, s', tr)) ∧
      s'._progress
        = ((n : ℚ) - ((s.data_to_empty.length - 1 : Nat) : ℚ)) / (n : ℚ) ∧
      s'._estimated_time
        = ((now - s._start_time) / ((n : ℚ) - ((s.data_to_empty.length - 1 : Nat) : ℚ)))
            * ((n : ℚ) - ((n : ℚ) - ((s.data_to_empty.length - 1 : Nat) : ℚ))) ∧
      s'._start_time = s._start_time := by
  subst htot
  cases hd : s.data_to_empty with
  | nil => exact absurd hd hne
  | cons d rest =>
    rw [hd] at hle
    simp only [List.length_cons] at hle
    have htot0 : s._total_items ≠ 0 := by omega
    have hproc : (s._total_items : Int) - (rest.length : Int) ≠ 0 := by omega
    have hmod := modal_timer_eq now s d rest hd htot0 hproc
    have hPdef : (tickedState now s)._progress
        = ((((s._total_items : Int) - (s.data_to_empty.tail.length : Int)) : Int) : ℚ)
            / (s._total_items : ℚ) := rfl
    have hEdef : (tickedState now s)._estimated_time
        = ((now - s._start_time)
              / ((((s._total_items : Int) - (s.data_to_empty.tail.length : Int)) : Int) : ℚ))
            * ((s._total_items : ℚ)
              - ((((s._total_items : Int) - (s.data_to_empty.tail.length : Int)) : Int) : ℚ)) :=
      rfl
    have hk : ((((s._total_items : Int) - (s.data_to_empty.tail.length : Int)) : Int) : ℚ)
        = (s._total_items : ℚ) - (((d :: rest).length - 1 : Nat) : ℚ) := by
      rw [hd]
      simp only [List.tail_cons, List.length_cons, Nat.add_sub_cancel]
      push_cast
      ring
    have hP : (tickedState now s)._progress
        = ((s._total_items : ℚ) - (((d :: rest).length - 1 : Nat) : ℚ)) / (s._total_items : ℚ) := by
      rw [hPdef, hk]
    have hE : (tickedState now s)._estimated_time
        = ((now - s._start_time)
              / ((s._total_items : ℚ) - (((d :: rest).length - 1 : Nat) : ℚ)))
            * ((s._total_items : ℚ)
              - ((s._total_items : ℚ) - (((d :: rest).length - 1 : Nat) : ℚ))) := by
      rw [hEdef, hk]
    by_cases harea : s._overlay_area.isSome = true
    · rw [if_pos harea] at hmod
      cases rest with
      | nil =>
        simp only [List.isEmpty_nil, reduceIte] at hmod
        exact ⟨tickedState now s, _, Or.inl ⟨ModalResult.FINISHED, hmod⟩, hP, hE, rfl⟩
      | cons x xs =>
        simp only [List.isEmpty_cons, Bool.false_eq_true, reduceIte] at hmod
        exact ⟨tickedState now s, _, Or.inl ⟨ModalResult.RUNNING_MODAL, hmod⟩, hP, hE, rfl⟩
    · rw [if_neg harea] at hmod
      exact ⟨tickedState now s, [HostCall.mainProcess d], Or.inr hmod, hP, hE, rfl⟩

/-- C6 witness: three items, one tick at `now = 2` from `_start_time = 0`:
progress is `1/3` and the estimate is `(2/1) * 2 = 4` (a non-UI state, so
the tick takes the error branch after the assignments). -/
theorem claim_C6_progress_and_estimate_witness :
    ∃ s' tr,
      ((∃ r, modal 2 ({ data_to_empty := [4, 5, 6], _total_items := 3 } : State Nat) "TIMER"
          = Except.ok (s', tr, r)) ∨
        modal 2 ({ data_to_empty := [4, 5, 6], _total_items := 3 } : State Nat) "TIMER"
          = Except.error (PyError.AttributeError, s', tr)) ∧
      s'._progress = (((3 : Nat) : ℚ)
          - ((({ data_to_empty := [4, 5, 6], _total_items := 3 } :
                State Nat).data_to_empty.length - 1 : Nat) : ℚ)) / ((3 : Nat) : ℚ) ∧
      s'._estimated_time
        = ((2 - ({ data_to_empty := [4, 5, 6], _total_items := 3 } :
                State Nat)._start_time)
              / (((3 : Nat) : ℚ)
                - ((({ data_to_empty := [4, 5, 6], _total_items := 3 } :
                      State Nat).data_to_empty.length - 1 : Nat) : ℚ)))
            * (((3 : Nat) : ℚ) - (((3 : Nat) : ℚ)
                - ((({ data_to_empty := [4, 5, 6], _total_items := 3 } :
                      State Nat).data_to_empty.length - 1 : Nat) : ℚ))) ∧
      s'._start_time
        = ({ data_to_empty := [4, 5, 6], _total_items := 3 } : State Nat)._start_time :=
  claim_C6_progress_and_estimate 2 _ 3 rfl (by decide) (by decide)

/-- C8: for every run `execute` actually starts (it returned
`RUNNING_MODAL` and registered the handler): with an empty queue the
divisor `_total_items` is `0` and the first `TIMER` event fails —
`data_to_empty[0]` raises `IndexError` before anything is processed; with
`n ≥ 1` items, on every `TIMER` tick of a run of at most `n` ticks the
indexing is in bounds and neither division divides by zero — the only
exception such a run can raise is the line-134 `AttributeError` of a
non-UI start, and a UI-invoked run raises nothing at all. -/
theorem claim_C8_empty_fails_nonempty_safe (now0 tick : ℚ) (s0 s1 : State Item)
    (hex : execute now0 s0 = Except.ok (s1, ModalResult.RUNNING_MODAL)) :
    (s0.data_to_empty = [] →
      modal tick s1 "TIMER" = Except.error (PyError.IndexError, s1, []) ∧
      s1._total_items = 0) ∧
    (1 ≤ s0.data_to_empty.length →
      ∀ times : List ℚ, times.length ≤ s0.data_to_empty.length →
        (∀ err s2 tr2, timerTicks times s1 = Except.error (err, s2, tr2) →
          err = PyError.AttributeError) ∧
        (s1._overlay_area.isSome = true →
          ∃ s' tr r, timerTicks times s1 = Except.ok (s', tr, r))) := by
  obtain ⟨hdata1, htotal1, _, _, _⟩ := execute_ok_inv now0 s0 s1 _ hex
  constructor
  · intro h0
    have hed : s1.data_to_empty = [] := by rw [hdata1, h0]
    constructor
    · simp [modal, timerStep, hed]
    · rw [htotal1, h0]
      rfl
  · intro _ times hts
    have hle1 : s1.data_to_empty.length ≤ s1._total_items := by
      rw [hdata1, htotal1]
    have hts1 : times.length ≤ s1.data_to_empty.length := by
      rw [hdata1]
      exact hts
    constructor
    · exact fun err s2 tr2 h => timerTicks_err_attr times s1 hle1 hts1 err s2 tr2 h
    · intro harea1
      obtain ⟨s', tr, heq, _⟩ := timerTicks_spec times s1 harea1 hle1 hts1
      exact ⟨s', tr, _, heq⟩

/-- C8 witness: an empty-queue start errors with `IndexError` on the first
tick; a UI-invoked two-item start survives two ticks. -/
theorem claim_C8_empty_fails_nonempty_safe_witness :
    (modal 1 ({
        progress_message := "Warming up",
        _timer := some (),
        _start_time := 0 } : State Nat) "TIMER"
      = Except.error (PyError.IndexError, {
          progress_message := "Warming up",
          _timer := some (),
          _start_time := 0 }, []) ∧
      ({
        progress_message := "Warming up",
        _timer := some (),
        _start_time := 0 } : State Nat)._total_items = 0) ∧
    (∃ s' tr r, timerTicks [1, 2] ({
        data_to_empty := [5, 6],
        progress_message := "Warming up",
        _total_items := 2,
        _timer := some (),
        _start_time := 0,
        _overlay_area := some () } : State Nat)
      = Except.ok (s', tr, r)) :=
  ⟨(claim_C8_empty_fails_nonempty_safe 0 1 ({ } : State Nat) _ rfl).1 rfl,
   ((claim_C8_empty_fails_nonempty_safe 0 1
      ({ data_to_empty := [5, 6], _overlay_area := some () } : State Nat) _ rfl).2
      (by decide) [1, 2] (by decide)).2 (by decide)⟩

/-- C9: resource release is an invariant of every exit path: whenever
`modal` returns `FINISHED` or `CANCELLED` its trace contains the timer
removal, and the draw-handler removal whenever `_overlay_draw_handler` was
set; the `cancel` safeguard likewise removes a registered draw handler. -/
theorem claim_C9_teardown_invariant (now : ℚ) (s s' : State Item) (e : String)
    (tr : List (HostCall Item)) (r : ModalResult)
    (hok : modal now s e = Except.ok (s', tr, r))
    (hr : r = ModalResult.FINISHED ∨ r = ModalResult.CANCELLED) :
    HostCall.timerRemove ∈ tr ∧
    (s._overlay_draw_handler.isSome = true → HostCall.drawHandlerRemove ∈ tr) ∧
    (s._overlay_draw_handler.isSome = true → HostCall.drawHandlerRemove ∈ cancel s) := by
  have hcancel : s._overlay_draw_handler.isSome = true →
      HostCall.drawHandlerRemove ∈ cancel s := by
    intro hh
    simp [cancel, hh]
  by_cases he : e = "TIMER"
  · subst he
    cases hd : s.data_to_empty with
    | nil => simp [modal, timerStep, hd] at hok
    | cons d rest =>
      by_cases h1 : s._total_items = 0
      · simp [modal, timerStep, hd, h1, main_process] at hok
      · by_cases h2 : (s._total_items : Int) - (rest.length : Int) = 0
        · simp [modal, timerStep, hd, h1, h2, main_process] at hok
        · have hmod := modal_timer_eq now s d rest hd h1 h2
          by_cases harea : s._overlay_area.isSome = true
          · rw [if_pos harea] at hmod
            cases rest with
            | nil =>
              simp only [List.isEmpty_nil, reduceIte] at hmod
              rw [hmod] at hok
              simp only [Except.ok.injEq, Prod.mk.injEq] at hok
              obtain ⟨_, htr, _⟩ := hok
              subst htr
              refine ⟨?_, fun hh => ?_, hcancel⟩
              · have := timerRemove_mem_teardown (tickedState now s)
                simp [this]
              · have := drawHandlerRemove_mem_teardown (tickedState now s)
                  (by simpa using hh)
                simp [this]
            | cons x xs =>
              simp only [List.isEmpty_cons, Bool.false_eq_true, reduceIte] at hmod
              rw [hmod] at hok
              simp only [Except.ok.injEq, Prod.mk.injEq] at hok
              obtain ⟨_, _, hrr⟩ := hok
              rw [← hrr] at hr
              simp at hr
          · rw [if_neg harea] at hmod
            rw [hmod] at hok
            simp at hok
  · by_cases he2 : e = "RET"
    · subst he2
      rw [modal_ret] at hok
      simp only [Except.ok.injEq, Prod.mk.injEq] at hok
      obtain ⟨_, htr, _⟩ := hok
      subst htr
      refine ⟨?_, fun hh => ?_, hcancel⟩
      · have := timerRemove_mem_teardown (cleanup s)
        simp [this]
      · have := drawHandlerRemove_mem_teardown (cleanup s) hh
        simp [this]
    · by_cases he3 : e = "ESC"
      · subst he3
        rw [modal_esc] at hok
        simp only [Except.ok.injEq, Prod.mk.injEq] at hok
        obtain ⟨_, htr, _⟩ := hok
        subst htr
        refine ⟨?_, fun hh => ?_, hcancel⟩
        · have := timerRemove_mem_teardown (undo_everything s)
          simp [this]
        · have := drawHandlerRemove_mem_teardown (undo_everything s) hh
          simp [this]
      · rw [modal_not_timer_ret_esc now s e he he2 he3] at hok
        simp only [Except.ok.injEq, Prod.mk.injEq] at hok
        obtain ⟨_, _, hrr⟩ := hok
        rw [← hrr] at hr
        simp at hr

/-- C9 witness: a `RET` event on a state with a registered draw handler. -/
theorem claim_C9_teardown_invariant_witness :
    HostCall.timerRemove ∈
      ([HostCall.cleanup, HostCall.drawHandlerRemove, HostCall.timerRemove] :
        List (HostCall Nat)) ∧
    (({ _overlay_draw_handler := some () } : State Nat)._overlay_draw_handler.isSome = true →
      (HostCall.drawHandlerRemove : HostCall Nat) ∈
        [HostCall.cleanup, HostCall.drawHandlerRemove, HostCall.timerRemove]) ∧
    (({ _overlay_draw_handler := some () } : State Nat)._overlay_draw_handler.isSome = true →
      (HostCall.drawHandlerRemove : HostCall Nat) ∈
        cancel ({ _overlay_draw_handler := some () } : State Nat)) :=
  claim_C9_teardown_invariant 0 ({ _overlay_draw_handler := some () } : State Nat)
    ({ _overlay_draw_handler := some () } : State Nat) "RET"
    [HostCall.cleanup, HostCall.drawHandlerRemove, HostCall.timerRemove]
    ModalResult.FINISHED rfl (Or.inl rfl)

/-- C10: `execute` rebinds `data_to_empty` to a fresh shallow copy, so the
list object bound before `execute` ran is never mutated by the per-tick
in-place pops: after any number of pops the original cell still holds its
original contents, while the copy owned by the operator has shrunk by the
popped items. -/
theorem claim_C10_shallow_copy_isolation (h : PyHeap Item) (r k : Nat)
    (hr : r < h.cells.length) :
    (executeCopy h r).2 ≠ r ∧
    ((fun hh => tickPop hh (executeCopy h r).2)^[k] (executeCopy h r).1).get r
      = h.get r ∧
    ((fun hh => tickPop hh (executeCopy h r).2)^[k] (executeCopy h r).1).get
        (executeCopy h r).2
      = (h.get r).drop k := by
  have hne : (executeCopy h r).2 ≠ r := by
    rw [executeCopy_snd]
    omega
  have hlt : (executeCopy h r).2 < (executeCopy h r).1.cells.length := by
    rw [executeCopy_snd]
    simp [executeCopy]
  obtain ⟨ha, hb, _⟩ := tickPop_iterate r (executeCopy h r).2 hne k (executeCopy h r).1 hlt
  refine ⟨hne, ?_, ?_⟩
  · rw [ha]
    exact executeCopy_get_old h r r hr
  · rw [hb, executeCopy_get_new]

/-- C10 witness: one three-element list object, two pops. -/
theorem claim_C10_shallow_copy_isolation_witness :
    (0 : Nat) < (⟨[[1, 2, 3]]⟩ : PyHeap Nat).cells.length ∧
    ((executeCopy (⟨[[1, 2, 3]]⟩ : PyHeap Nat) 0).2 ≠ 0 ∧
      ((fun hh => tickPop hh (executeCopy (⟨[[1, 2, 3]]⟩ : PyHeap Nat) 0).2)^[2]
          (executeCopy (⟨[[1, 2, 3]]⟩ : PyHeap Nat) 0).1).get 0
        = (⟨[[1, 2, 3]]⟩ : PyHeap Nat).get 0 ∧
      ((fun hh => tickPop hh (executeCopy (⟨[[1, 2, 3]]⟩ : PyHeap Nat) 0).2)^[2]
          (executeCopy (⟨[[1, 2, 3]]⟩ : PyHeap Nat) 0).1).get
          (executeCopy (⟨[[1, 2, 3]]⟩ : PyHeap Nat) 0).2
        = ((⟨[[1, 2, 3]]⟩ : PyHeap Nat).get 0).drop 2) :=
  ⟨by decide, claim_C10_shallow_copy_isolation (⟨[[1, 2, 3]]⟩ : PyHeap Nat) 0 2 (by decide)⟩

end BatchJobsUtils
